import Mathlib

/-!
Verification of the SKN-Defect dashboard (src/app.py).

The program is a pandas/streamlit application.  We give a shallow
embedding of its data model and of the functions the specification's
claims are about:

* a `DataFrame` is a column schema together with a list of rows, each
  row a list of cell `Value`s (a cell is missing — pandas `NaN` — a
  string, or a number; numbers are modelled by `ℚ`);
* pandas equality comparison (`df[col] == value`) never holds on a
  missing value, which `valEq` reproduces;
* `filter_dataframe`, `rearrange_columns`, `process_coordinates`,
  `create_map`, `create_sidebar_filters` and the body of `main` are
  translated function by function;
* operations that raise in Python (selecting an absent column raises
  `KeyError`, taking the mean of a non-numeric column raises
  `TypeError`) return `Except String`.
-/

/-- A cell of a dataframe: missing (pandas NaN), a string, or a number. -/
inductive Value where
  | na : Value
  | str : String → Value
  | num : ℚ → Value
deriving DecidableEq, Repr

/-- Is this cell missing (pandas NaN)? -/
def isNA : Value → Bool
  | Value.na => true
  | _ => false

/-- Pandas elementwise equality: NaN compares unequal to everything
(including NaN); otherwise structural equality. -/
def valEq : Value → Value → Bool
  | Value.na, _ => false
  | _, Value.na => false
  | Value.str a, Value.str b => a = b
  | Value.num a, Value.num b => a = b
  | _, _ => false

/-- The sentinel filter value `"All"` (means: no constraint). -/
def allValue : Value := Value.str "All"

/-- A dataframe: an ordered column schema and a list of rows. -/
structure DataFrame where
  schema : List String
  rows : List (List Value)
deriving DecidableEq, Repr

/-- Index of a column in a schema (first occurrence), if present. -/
def colIdx : List String → String → Option Nat
  | [], _ => none
  | s :: rest, c => if s = c then some 0 else (colIdx rest c).map (· + 1)

/-- The value of `row[col]` given the row's schema; missing columns and
short rows read as NaN (unreachable for well-formed frames). -/
def cellOf (schema : List String) (row : List Value) (col : String) : Value :=
  match colIdx schema col with
  | some i => row.getD i Value.na
  | none => Value.na

/-- The values of one column, in row order (pandas `df[col]`). -/
def colValues (df : DataFrame) (col : String) : List Value :=
  df.rows.map (fun r => cellOf df.schema r col)

/-- Column projection `df[cols]` (caller guarantees the columns exist). -/
def selectColumns (df : DataFrame) (cols : List String) : DataFrame :=
  { schema := cols,
    rows := df.rows.map (fun r => cols.map (fun c => cellOf df.schema r c)) }

/-- Pandas `df.dropna()`: drop every row containing a missing value. -/
def dropna (df : DataFrame) : DataFrame :=
  { df with rows := df.rows.filter (fun r => r.all (fun v => !(isNA v))) }

/-- Pandas `df.dropna(subset=cols)`: drop rows with a missing value in one of
the listed columns, keeping all columns. -/
def dropnaSubset (df : DataFrame) (cols : List String) : DataFrame :=
  { df with
    rows := df.rows.filter
      (fun r => cols.all (fun c => !(isNA (cellOf df.schema r c)))) }

/-- One step of `filter_dataframe` (app.py lines 106-108): for a
`(column, value)` pair, keep only the rows whose cell equals the value,
unless the value is the `"All"` sentinel or the column is absent. -/
def filterStep (df : DataFrame) (cv : String × Value) : DataFrame :=
  if cv.2 ≠ allValue ∧ cv.1 ∈ df.schema then
    { df with
      rows := df.rows.filter (fun r => valEq (cellOf df.schema r cv.1) cv.2) }
  else df

/-- Function `filter_dataframe(df, filters)` (app.py lines 104-109).  The Python
dict of filters is modelled as an association list iterated in order. -/
def filter_dataframe (df : DataFrame) (filters : List (String × Value)) :
    DataFrame :=
  filters.foldl filterStep df

/-- Function `rearrange_columns(df, priority_columns)` (app.py lines 132-136). -/
def rearrange_columns (df : DataFrame) (priority_columns : List String) :
    DataFrame :=
  let available_cols := priority_columns.filter (fun c => c ∈ df.schema)
  let remaining_cols := df.schema.filter (fun c => c ∉ priority_columns)
  selectColumns df (available_cols ++ remaining_cols)

/-- Expression `df[['Latitude','Longitude']].dropna()` (app.py lines 32, 37-38):
selecting the two columns raises `KeyError` when either is absent. -/
def coordFrame (df : DataFrame) : Except String DataFrame :=
  if "Latitude" ∈ df.schema ∧ "Longitude" ∈ df.schema then
    Except.ok (dropna (selectColumns df ["Latitude", "Longitude"]))
  else Except.error "KeyError: ['Latitude', 'Longitude'] not in index"

/-- Function `process_coordinates(df)` (app.py lines 30-32): the two-column
frame's rows as `(lat, lon)` pairs (`.values.tolist()`). -/
def process_coordinates (df : DataFrame) :
    Except String (List (Value × Value)) :=
  (coordFrame df).map
    (fun f => f.rows.map (fun r => (r.getD 0 Value.na, r.getD 1 Value.na)))

/-- Display form of a cell value, for popup HTML. -/
def valStr : Value → String
  | Value.na => "nan"
  | Value.str s => s
  | Value.num q => toString q

/-- Function `create_popup_html(row, defect_type)` (app.py lines 20-28): a table
listing every column of the row as label/value, in column order. -/
def create_popup_html (schema : List String) (row : List Value)
    (defect_type : String) : String :=
  "<b>" ++ defect_type.toUpper ++ " Defect</b><br>" ++ "<table>" ++
    String.join (schema.map (fun col =>
      "<tr><td><b>" ++ col ++ "</b></td><td>" ++
        valStr (cellOf schema row col) ++ "</td></tr>")) ++
    "</table>"

/-- A point marker: its location values, popup HTML and icon color. -/
structure MarkerInfo where
  lat : Value
  lon : Value
  popup : String
  color : String
deriving DecidableEq, Repr

/-- A folium layer attached to the map: a marker-cluster layer, a heat
(density) layer, or the locate control. -/
inductive Layer where
  | cluster : String → List MarkerInfo → Layer
  | heat : List (Value × Value) → Layer
  | locate : Layer
deriving DecidableEq, Repr

/-- Is this layer a marker-cluster layer? -/
def Layer.isCluster : Layer → Bool
  | Layer.cluster _ _ => true
  | _ => false

/-- Is this layer a heat/density layer? -/
def Layer.isHeat : Layer → Bool
  | Layer.heat _ => true
  | _ => false

/-- The point markers held by a layer (clusters only). -/
def Layer.markers : Layer → List MarkerInfo
  | Layer.cluster _ ms => ms
  | _ => []

/-- The `basemap_choice` argument of `create_map`: a tiles name
(`str`), a `{tiles, attribution}` dict, or anything else (`None`). -/
inductive BasemapSpec where
  | name : String → BasemapSpec
  | custom : String → Option String → BasemapSpec
  | unspecified : BasemapSpec
deriving DecidableEq, Repr

/-- Resolution of the basemap to `(tiles, attribution)` (app.py lines
45-55): a string is used as the tiles name, a dict supplies tiles and
attribution (default `""`), anything else means OpenStreetMap. -/
def resolveTiles : BasemapSpec → String × String
  | BasemapSpec.name s => (s, "")
  | BasemapSpec.custom t a => (t, a.getD "")
  | BasemapSpec.unspecified => ("OpenStreetMap", "")

/-- The renderable map artifact produced by `create_map`. -/
structure MapArtifact where
  center : ℚ × ℚ
  zoom : Nat
  tiles : String
  attribution : String
  layers : List Layer
deriving DecidableEq, Repr

/-- Numeric view of a cell; pandas `.mean()` raises `TypeError` on
non-numeric entries (missing values were already dropped). -/
def toNum : Value → Except String ℚ
  | Value.num q => Except.ok q
  | _ => Except.error "TypeError: could not compute mean of non-numeric column"

/-- Numeric view of a whole column, propagating `TypeError`. -/
def toNums : List Value → Except String (List ℚ)
  | [] => Except.ok []
  | v :: rest =>
    match toNum v, toNums rest with
    | Except.ok q, Except.ok qs => Except.ok (q :: qs)
    | Except.error e, _ => Except.error e
    | _, Except.error e => Except.error e

/-- The map center (app.py lines 41-42): columnwise mean of the
combined dropna'd coordinate rows, or the fixed fallback when empty. -/
def centerOf (all_coords : List (List Value)) : Except String (ℚ × ℚ) :=
  if all_coords.isEmpty then Except.ok (529399/10000, -1084976/10000)
  else
    match toNums (all_coords.map (fun r => r.getD 0 Value.na)),
        toNums (all_coords.map (fun r => r.getD 1 Value.na)) with
    | Except.ok lats, Except.ok lons =>
      Except.ok (lats.sum / lats.length, lons.sum / lons.length)
    | Except.error e, _ => Except.error e
    | _, Except.error e => Except.error e

/-- The markers of one dataset (app.py lines 63-80): rows with both
coordinates present, in row order, each carrying a full-row popup. -/
def markersOf (df : DataFrame) (defect_type : String) (color : String) :
    List MarkerInfo :=
  (dropnaSubset df ["Latitude", "Longitude"]).rows.map (fun r =>
    { lat := cellOf df.schema r "Latitude",
      lon := cellOf df.schema r "Longitude",
      popup := create_popup_html df.schema r defect_type,
      color := color })

/-- Function `create_map(dtn_df, tec_df, map_view_mode, basemap_choice)` (app.py
lines 34-102).  The coordinate concatenation (lines 36-38) selects the
coordinate columns of both frames and so raises `KeyError` when either
frame lacks one; the markers branch guards each dataset's columns
individually (lines 63, 73); the heatmap branch adds a heat layer only
when the combined coordinate list is nonempty (lines 83-85); the locate
control is attached last (lines 88-100). -/
def create_map (dtn_df tec_df : DataFrame) (map_view_mode : String)
    (basemap_choice : BasemapSpec) : Except String MapArtifact :=
  match coordFrame dtn_df with
  | Except.error e => Except.error e
  | Except.ok a =>
    match coordFrame tec_df with
    | Except.error e => Except.error e
    | Except.ok b =>
      match centerOf (a.rows ++ b.rows) with
      | Except.error e => Except.error e
      | Except.ok center =>
        let tiles := resolveTiles basemap_choice
        if map_view_mode = "markers" then
          let dtn_markers :=
            if "Latitude" ∈ dtn_df.schema ∧ "Longitude" ∈ dtn_df.schema then
              markersOf dtn_df "DTN" "red"
            else []
          let tec_markers :=
            if "Latitude" ∈ tec_df.schema ∧ "Longitude" ∈ tec_df.schema then
              markersOf tec_df "TEC" "blue"
            else []
          Except.ok
            { center := center, zoom := 7, tiles := tiles.1,
              attribution := tiles.2,
              layers := [Layer.cluster "DTN Defects" dtn_markers,
                         Layer.cluster "ATGMS Defects" tec_markers,
                         Layer.locate] }
        else
          match process_coordinates dtn_df, process_coordinates tec_df with
          | Except.ok h1, Except.ok h2 =>
            Except.ok
              { center := center, zoom := 7, tiles := tiles.1,
                attribution := tiles.2,
                layers :=
                  (if (h1 ++ h2).isEmpty then [] else [Layer.heat (h1 ++ h2)]) ++
                    [Layer.locate] }
          | Except.error e, _ => Except.error e
          | _, Except.error e => Except.error e

/-- Distinct values in order of first occurrence, skipping values
already seen (helper for `uniqueList`). -/
def uniqueAux : List Value → List Value → List Value
  | [], _ => []
  | v :: rest, seen =>
    if v ∈ seen then uniqueAux rest seen
    else v :: uniqueAux rest (v :: seen)

/-- Pandas `Series.unique()`: distinct values in order of first occurrence. -/
def uniqueList (l : List Value) : List Value := uniqueAux l []

/-- Selection logic of `create_sidebar_filters` for one column
(app.py lines 111-130).  For each filterable column present in the
schema the options are `"All"` followed by the column's distinct
values; the default index is the configured default's position among
the options, or `0` when it is absent (`ValueError` branch).  The
selectbox widget is modelled by a `choices` oracle: it returns the
user's selection when one exists and is still among the options, and
the option at the default index otherwise.  The widget-label argument
of the source (display-only) is omitted. -/
def sidebarSelected (df : DataFrame) (col : String)
    (default_values choices : List (String × Value)) : Value :=
  let unique_values := allValue :: uniqueList (colValues df col)
  let default_value := (default_values.lookup col).getD allValue
  let default_index :=
    if default_value ∈ unique_values then
      unique_values.indexOf default_value
    else 0
  match choices.lookup col with
  | some u =>
    if u ∈ unique_values then u else unique_values.getD default_index allValue
  | none => unique_values.getD default_index allValue

/-- The loop of `create_sidebar_filters`: one association-list entry per
filterable column that exists in the schema. -/
def create_sidebar_filters (df : DataFrame) (filter_columns : List String)
    (default_values : List (String × Value))
    (choices : List (String × Value)) : List (String × Value) :=
  match filter_columns with
  | [] => []
  | col :: rest =>
    if col ∈ df.schema then
      (col, sidebarSelected df col default_values choices) ::
        create_sidebar_filters df rest default_values choices
    else create_sidebar_filters df rest default_values choices

/-- Expression `df[df[col] == v]` (app.py lines 157-158; `main` has already checked
that the column exists). -/
def eqFilterRows (df : DataFrame) (col : String) (v : Value) : DataFrame :=
  { df with rows := df.rows.filter (fun r => valEq (cellOf df.schema r col) v) }

/-- Default DTN filters (app.py lines 167-169). -/
def dtn_default_filters : List (String × Value) :=
  [("Status", Value.str "Open")]

/-- Default TEC filters (app.py lines 170-174). -/
def tec_default_filters : List (String × Value) :=
  [("Status", Value.str "Confirmed"),
   ("Sys", Value.str "TGMS"),
   ("Severity", Value.str "Urgent")]

/-- DTN priority columns (app.py lines 197-200). -/
def dtn_priority_cols : List String :=
  ["MP", "Asset Type", "Asset", "Defect Date", "Comment",
   "Reg Rule", "Reg Rule Description", "Status", "Action"]

/-- TEC priority columns (app.py lines 201-204). -/
def tec_priority_cols : List String :=
  ["MP", "Linecode", "Date Time", "Sys", "Severity",
   "Type", "Value", "Length", "Status"]

/-- The basemap options offered by `main` (app.py lines 210-227). -/
def basemap_options : List (String × BasemapSpec) :=
  [("Street (OpenStreetMap)", BasemapSpec.name "OpenStreetMap"),
   ("Light (CartoDB positron)", BasemapSpec.name "CartoDB positron"),
   ("Dark (CartoDB dark_matter)", BasemapSpec.name "CartoDB dark_matter"),
   ("Topographic (OpenTopoMap)", BasemapSpec.name "OpenTopoMap"),
   ("ESRI World Street Map",
    BasemapSpec.custom
      "https://server.arcgisonline.com/ArcGIS/rest/services/World_Street_Map/MapServer/tile/\x7bz\x7d/\x7by\x7d/\x7bx\x7d"
      (some "Tiles &copy; Esri — Source: Esri, DeLorme, NAVTEQ, USGS, etc.")),
   ("ESRI World Topo Map",
    BasemapSpec.custom
      "https://server.arcgisonline.com/ArcGIS/rest/services/World_Topo_Map/MapServer/tile/\x7bz\x7d/\x7by\x7d/\x7bx\x7d"
      (some "Tiles &copy; Esri — Source: Esri, DeLorme, NAVTEQ, USGS, etc.")),
   ("ESRI World Imagery",
    BasemapSpec.custom
      "https://server.arcgisonline.com/ArcGIS/rest/services/World_Imagery/MapServer/tile/\x7bz\x7d/\x7by\x7d/\x7bx\x7d"
      (some "Tiles &copy; Esri, i-cubed, USDA, USGS, AEX, GeoEye, etc."))]

/-- What one recomputation pass of the dashboard displays: the optional
map artifact, the optional no-coordinate warning, and the two filtered,
reordered tables with their displayed row counts. -/
structure Dashboard where
  mapArtifact : Option MapArtifact
  warning : Option String
  dtnTable : DataFrame
  tecTable : DataFrame
  dtnRowCount : Nat
  tecRowCount : Nat
deriving DecidableEq, Repr

/-- The body of `main` (app.py lines 138-307) after a successful load,
as a function of the loaded frames and the widget state (subdivision
pick, per-column filter selections, view mode, basemap pick).  Halting
with a visible error (missing `Subdivision` column) and uncaught
exceptions from `create_map` are both `Except.error`.  The map guard
(lines 262-263) requires the coordinate columns in at least one of the
two rearranged frames; otherwise the warning of line 296 is shown.  The
tables and their row counts (lines 298-307) are displayed in every
non-halting pass. -/
def mainRun (dtn_df tec_df : DataFrame) (subdivision_choice : String)
    (dtnChoices tecChoices : List (String × Value))
    (map_view_mode : String) (basemap_choice : String) :
    Except String Dashboard :=
  if "Subdivision" ∈ dtn_df.schema ∧ "Subdivision" ∈ tec_df.schema then
    let filtered_dtn := eqFilterRows dtn_df "Subdivision" (Value.str subdivision_choice)
    let filtered_tec := eqFilterRows tec_df "Subdivision" (Value.str subdivision_choice)
    let dtn_filters :=
      create_sidebar_filters filtered_dtn ["Status", "Asset"]
        dtn_default_filters dtnChoices
    let filtered_dtn := filter_dataframe filtered_dtn dtn_filters
    let tec_filters :=
      create_sidebar_filters filtered_tec ["Status", "Sys", "Severity"]
        tec_default_filters tecChoices
    let filtered_tec := filter_dataframe filtered_tec tec_filters
    let rearranged_dtn := rearrange_columns filtered_dtn dtn_priority_cols
    let rearranged_tec := rearrange_columns filtered_tec tec_priority_cols
    if ("Latitude" ∈ rearranged_dtn.schema ∧ "Longitude" ∈ rearranged_dtn.schema) ∨
        ("Latitude" ∈ rearranged_tec.schema ∧ "Longitude" ∈ rearranged_tec.schema) then
      match basemap_options.lookup basemap_choice with
      | none => Except.error "KeyError: basemap choice"
      | some bm =>
        match create_map rearranged_dtn rearranged_tec map_view_mode bm with
        | Except.error e => Except.error e
        | Except.ok m =>
          Except.ok
            { mapArtifact := some m, warning := none,
              dtnTable := rearranged_dtn, tecTable := rearranged_tec,
              dtnRowCount := rearranged_dtn.rows.length,
              tecRowCount := rearranged_tec.rows.length }
    else
      Except.ok
        { mapArtifact := none,
          warning := some "No coordinate data available for mapping.",
          dtnTable := rearranged_dtn, tecTable := rearranged_tec,
          dtnRowCount := rearranged_dtn.rows.length,
          tecRowCount := rearranged_tec.rows.length }
  else
    Except.error "Error: 'Subdivision' column not found in one or both datasets."

/-- The centroid computation of app.py lines 41-42 extracted to rational
coordinate pairs (spec §4.4 `centroid`): arithmetic mean of latitudes
and of longitudes, with the fixed fallback on an empty list. -/
def centroid (coords : List (ℚ × ℚ)) : ℚ × ℚ :=
  if coords.isEmpty then (529399/10000, -1084976/10000)
  else ((coords.map Prod.fst).sum / coords.length,
        (coords.map Prod.snd).sum / coords.length)

/-- Specification-side characterization (spec §4.4 `extract`): the
`(Latitude, Longitude)` pairs of the rows where both values are
present, in row order. -/
def validPairs (df : DataFrame) : List (Value × Value) :=
  (df.rows.map (fun r =>
      (cellOf df.schema r "Latitude", cellOf df.schema r "Longitude"))).filter
    (fun p => !(isNA p.1) && !(isNA p.2))

/-- The valid coordinates of a dataset as rational pairs (rows whose
coordinate cells are present and numeric). -/
def validRatCoords (df : DataFrame) : List (ℚ × ℚ) :=
  (validPairs df).filterMap (fun p =>
    match p.1, p.2 with
    | Value.num a, Value.num b => some (a, b)
    | _, _ => none)

/-- Numeric reading of a dropna'd two-column coordinate row. -/
def ratPair (r : List Value) : Option (ℚ × ℚ) :=
  match r.getD 0 Value.na, r.getD 1 Value.na with
  | Value.num a, Value.num b => some (a, b)
  | _, _ => none

/-! ### Basic lemmas -/

theorem dataframe_ext {a b : DataFrame} (h1 : a.schema = b.schema)
    (h2 : a.rows = b.rows) : a = b := by
  cases a; cases b; cases h1; cases h2; rfl

theorem filterStep_schema (df : DataFrame) (cv : String × Value) :
    (filterStep df cv).schema = df.schema := by
  unfold filterStep; split <;> rfl

theorem filter_dataframe_nil (df : DataFrame) : filter_dataframe df [] = df :=
  rfl

theorem filter_dataframe_cons (df : DataFrame) (cv : String × Value)
    (fs : List (String × Value)) :
    filter_dataframe df (cv :: fs) = filter_dataframe (filterStep df cv) fs :=
  rfl

theorem filter_dataframe_schema (df : DataFrame) (fs : List (String × Value)) :
    (filter_dataframe df fs).schema = df.schema := by
  induction fs generalizing df with
  | nil => rfl
  | cons cv fs ih =>
    rw [filter_dataframe_cons, ih, filterStep_schema]

theorem filterStep_rows_sublist (df : DataFrame) (cv : String × Value) :
    (filterStep df cv).rows.Sublist df.rows := by
  unfold filterStep; split
  · exact List.filter_sublist _
  · exact List.Sublist.refl _

theorem filter_dataframe_rows_sublist (df : DataFrame)
    (fs : List (String × Value)) :
    (filter_dataframe df fs).rows.Sublist df.rows := by
  induction fs generalizing df with
  | nil => exact List.Sublist.refl _
  | cons cv fs ih =>
    exact (ih (filterStep df cv)).trans (filterStep_rows_sublist df cv)

theorem mem_rows_filter_dataframe_satisfies (df : DataFrame)
    (fs : List (String × Value)) (r : List Value)
    (hr : r ∈ (filter_dataframe df fs).rows) :
    ∀ cv ∈ fs, cv.2 ≠ allValue → cv.1 ∈ df.schema →
      valEq (cellOf df.schema r cv.1) cv.2 = true := by
  induction fs generalizing df with
  | nil => intro cv hcv; exact absurd hcv (List.not_mem_nil cv)
  | cons cv0 fs ih =>
    intro cv hcv hne hmem
    rw [filter_dataframe_cons] at hr
    rcases List.mem_cons.mp hcv with h | h
    · subst h
      have hr0 : r ∈ (filterStep df cv).rows :=
        (filter_dataframe_rows_sublist _ _).subset hr
      unfold filterStep at hr0
      rw [if_pos ⟨hne, hmem⟩] at hr0
      exact (List.mem_filter.mp hr0).2
    · have hmem' : cv.1 ∈ (filterStep df cv0).schema := by
        rw [filterStep_schema]; exact hmem
      have := ih (filterStep df cv0) hr cv h hne hmem'
      rw [filterStep_schema] at this
      exact this

theorem mem_rows_filter_dataframe_of_satisfies (df : DataFrame)
    (fs : List (String × Value)) (r : List Value) (hr : r ∈ df.rows)
    (hsat : ∀ cv ∈ fs, cv.2 ≠ allValue → cv.1 ∈ df.schema →
      valEq (cellOf df.schema r cv.1) cv.2 = true) :
    r ∈ (filter_dataframe df fs).rows := by
  induction fs generalizing df with
  | nil => exact hr
  | cons cv fs ih =>
    rw [filter_dataframe_cons]
    have hr' : r ∈ (filterStep df cv).rows := by
      unfold filterStep
      split
    
      case isTrue h =>
        exact List.mem_filter.mpr ⟨hr, hsat cv (List.mem_cons_self cv fs) h.1 h.2⟩
      case isFalse h => exact hr
    refine ih (filterStep df cv) hr' ?_
    intro cv' hcv' hne hmem
    have hmem' : cv'.1 ∈ df.schema := by
      rw [filterStep_schema] at hmem; exact hmem
    rw [filterStep_schema]
    exact hsat cv' (List.mem_cons_of_mem cv hcv') hne hmem'

theorem filterStep_unknown (df : DataFrame) (cv : String × Value)
    (h : cv.1 ∉ df.schema) : filterStep df cv = df := by
  unfold filterStep
  rw [if_neg (fun hc => h hc.2)]

theorem filter_dataframe_known (df : DataFrame) (fs : List (String × Value)) :
    filter_dataframe df (fs.filter (fun cv => cv.1 ∈ df.schema)) =
      filter_dataframe df fs := by
  induction fs generalizing df with
  | nil => rfl
  | cons cv fs ih =>
    by_cases h : cv.1 ∈ df.schema
    · rw [List.filter_cons_of_pos (by simpa using h), filter_dataframe_cons,
        filter_dataframe_cons]
      have hsch : df.schema = (filterStep df cv).schema :=
        (filterStep_schema df cv).symm
      calc filter_dataframe (filterStep df cv)
            (fs.filter (fun cv' => cv'.1 ∈ df.schema))
          = filter_dataframe (filterStep df cv)
            (fs.filter (fun cv' => cv'.1 ∈ (filterStep df cv).schema)) := by
            rw [filterStep_schema]
        _ = filter_dataframe (filterStep df cv) fs := ih (filterStep df cv)
    · rw [List.filter_cons_of_neg (by simpa using h), filter_dataframe_cons,
        filterStep_unknown df cv h]
      exact ih df

/-! ### Claim C1: correctness of the filter engine -/

/-- C1.  For every dataset `df` and FilterSpec `fs`, `filter_dataframe`
keeps the schema, returns a subsequence of the rows (order preserved;
the embedding is pure, so the input is not mutated), every retained row
satisfies the equality for every non-`All` entry whose column is in the
schema, every row satisfying all those equalities is retained, and
entries whose column is not in the schema have no effect. -/
theorem filter_dataframe_correct (df : DataFrame) (fs : List (String × Value)) :
    (filter_dataframe df fs).schema = df.schema ∧
    (filter_dataframe df fs).rows.Sublist df.rows ∧
    (∀ r ∈ (filter_dataframe df fs).rows, ∀ cv ∈ fs,
      cv.2 ≠ allValue → cv.1 ∈ df.schema →
        valEq (cellOf df.schema r cv.1) cv.2 = true) ∧
    (∀ r ∈ df.rows,
      (∀ cv ∈ fs, cv.2 ≠ allValue → cv.1 ∈ df.schema →
        valEq (cellOf df.schema r cv.1) cv.2 = true) →
      r ∈ (filter_dataframe df fs).rows) ∧
    filter_dataframe df (fs.filter (fun cv => cv.1 ∈ df.schema)) =
      filter_dataframe df fs :=
  ⟨filter_dataframe_schema df fs,
   filter_dataframe_rows_sublist df fs,
   fun r hr => mem_rows_filter_dataframe_satisfies df fs r hr,
   fun r hr hsat => mem_rows_filter_dataframe_of_satisfies df fs r hr hsat,
   filter_dataframe_known df fs⟩

theorem filter_dataframe_correct_witness :
    filter_dataframe
        ⟨["Status"], [[Value.str "Open"], [Value.str "Closed"]]⟩
        [("Status", Value.str "Open"), ("Asset", Value.str "X")] =
      ⟨["Status"], [[Value.str "Open"]]⟩ ∧
    (filter_dataframe
        ⟨["Status"], [[Value.str "Open"], [Value.str "Closed"]]⟩
        [("Status", Value.str "Open"), ("Asset", Value.str "X")]).rows.Sublist
      [[Value.str "Open"], [Value.str "Closed"]] :=
  ⟨by decide,
   (filter_dataframe_correct
     ⟨["Status"], [[Value.str "Open"], [Value.str "Closed"]]⟩
     [("Status", Value.str "Open"), ("Asset", Value.str "X")]).2.1⟩

/-! ### Claim C6: algebra of filter composition -/

/-- The boolean test one filter entry imposes on a row (true when the
entry is inactive). -/
def appliesB (S : List String) (r : List Value) (cv : String × Value) : Bool :=
  if cv.2 ≠ allValue ∧ cv.1 ∈ S then valEq (cellOf S r cv.1) cv.2 else true

theorem filter_dataframe_rows_eq (df : DataFrame) (fs : List (String × Value)) :
    (filter_dataframe df fs).rows =
      df.rows.filter (fun r => fs.all (appliesB df.schema r)) := by
  induction fs generalizing df with
  | nil => simp [filter_dataframe]
  | cons cv fs ih =>
    rw [filter_dataframe_cons, ih (filterStep df cv), filterStep_schema]
    by_cases h : cv.2 ≠ allValue ∧ cv.1 ∈ df.schema
    · have hstep : (filterStep df cv).rows =
          df.rows.filter (fun r => valEq (cellOf df.schema r cv.1) cv.2) := by
        unfold filterStep; rw [if_pos h]
      rw [hstep, List.filter_filter]
      refine List.filter_congr ?_
      intro r _
      show (fs.all (appliesB df.schema r) && valEq (cellOf df.schema r cv.1) cv.2)
          = (cv :: fs).all (appliesB df.schema r)
      rw [List.all_cons, Bool.and_comm]
      have : appliesB df.schema r cv = valEq (cellOf df.schema r cv.1) cv.2 := by
        unfold appliesB; rw [if_pos h]
      rw [this]
    · have hstep : filterStep df cv = df := by
        unfold filterStep; rw [if_neg h]
      rw [hstep]
      refine List.filter_congr ?_
      intro r _
      have : appliesB df.schema r cv = true := by
        unfold appliesB; rw [if_neg h]
      rw [List.all_cons, this, Bool.true_and]

theorem filter_dataframe_comm (df : DataFrame)
    (f1 f2 : List (String × Value)) :
    filter_dataframe (filter_dataframe df f1) f2 =
      filter_dataframe (filter_dataframe df f2) f1 := by
  refine dataframe_ext ?_ ?_
  · rw [filter_dataframe_schema, filter_dataframe_schema,
      filter_dataframe_schema, filter_dataframe_schema]
  · rw [filter_dataframe_rows_eq, filter_dataframe_rows_eq,
      filter_dataframe_rows_eq, filter_dataframe_rows_eq,
      filter_dataframe_schema, filter_dataframe_schema,
      List.filter_filter, List.filter_filter]
    refine List.filter_congr ?_
    intro r _
    rw [Bool.and_comm]

theorem filter_dataframe_append (df : DataFrame)
    (f1 f2 : List (String × Value)) :
    filter_dataframe df (f1 ++ f2) =
      filter_dataframe (filter_dataframe df f1) f2 := by
  simp [filter_dataframe, List.foldl_append]

/-- C6 counterexample.  Composing two filters on the same column is NOT
equivalent to filtering once with the later value: on a one-row frame
whose `Status` is `Open`, filtering by `Closed` and then by `Open`
yields no rows, while filtering once by `Open` keeps the row. -/
theorem filter_same_column_counterexample :
    filter_dataframe
        (filter_dataframe ⟨["Status"], [[Value.str "Open"]]⟩
          [("Status", Value.str "Closed")])
        [("Status", Value.str "Open")] ≠
      filter_dataframe ⟨["Status"], [[Value.str "Open"]]⟩
        [("Status", Value.str "Open")] := by
  decide

/-- C6 (amended).  (i) Composing filters on disjoint column sets is
commutative (the code satisfies this for all FilterSpecs).  (ii)
Composing two filters on the same column retains exactly the rows
matching both values; it equals filtering once with the later value
when the earlier value is `All` or the two values are equal — not in
general. -/
theorem filter_compose_spec (df : DataFrame) (f1 f2 : List (String × Value))
    (c : String) (v1 v2 : Value)
    (hdisj : ∀ cv1 ∈ f1, ∀ cv2 ∈ f2, cv1.1 ≠ cv2.1) :
    filter_dataframe (filter_dataframe df f1) f2 =
        filter_dataframe (filter_dataframe df f2) f1 ∧
    ((v1 = allValue ∨ v1 = v2) →
      filter_dataframe (filter_dataframe df [(c, v1)]) [(c, v2)] =
        filter_dataframe df [(c, v2)]) ∧
    (v1 ≠ allValue → v2 ≠ allValue → c ∈ df.schema →
      (filter_dataframe (filter_dataframe df [(c, v1)]) [(c, v2)]).rows =
        df.rows.filter (fun r =>
          valEq (cellOf df.schema r c) v1 && valEq (cellOf df.schema r c) v2)) := by
  refine ⟨filter_dataframe_comm df f1 f2, ?_, ?_⟩
  · intro h
    rw [← filter_dataframe_append]
    refine dataframe_ext ?_ ?_
    · rw [filter_dataframe_schema, filter_dataframe_schema]
    · rw [filter_dataframe_rows_eq, filter_dataframe_rows_eq]
      refine List.filter_congr ?_
      intro r _
      simp only [List.all_append, List.all_cons, List.all_nil, Bool.and_true]
      rcases h with h | h
      · subst h
        have h1 : appliesB df.schema r (c, allValue) = true := by
          unfold appliesB
          rw [if_neg (fun hp => hp.1 rfl)]
        rw [h1, Bool.true_and]
      · subst h
        exact Bool.and_self _
  · intro hv1 hv2 hc
    rw [← filter_dataframe_append, filter_dataframe_rows_eq]
    refine List.filter_congr ?_
    intro r _
    simp only [List.all_append, List.all_cons, List.all_nil, Bool.and_true]
    have h1 : appliesB df.schema r (c, v1) = valEq (cellOf df.schema r c) v1 := by
      unfold appliesB; rw [if_pos ⟨hv1, hc⟩]
    have h2 : appliesB df.schema r (c, v2) = valEq (cellOf df.schema r c) v2 := by
      unfold appliesB; rw [if_pos ⟨hv2, hc⟩]
    rw [h1, h2]

theorem filter_compose_spec_witness :
    filter_dataframe
        (filter_dataframe ⟨["Status"], [[Value.str "Open"]]⟩
          [("Status", Value.str "Open")])
        [("Status", Value.str "Open")] =
      filter_dataframe ⟨["Status"], [[Value.str "Open"]]⟩
        [("Status", Value.str "Open")] :=
  (filter_compose_spec ⟨["Status"], [[Value.str "Open"]]⟩ [] []
      "Status" (Value.str "Open") (Value.str "Open")
      (fun cv1 h => absurd h (List.not_mem_nil cv1))).2.1
    (Or.inr rfl)

/-! ### Claims C4 and C9: the column prioritizer -/

theorem rearrange_columns_schema (df : DataFrame) (P : List String) :
    (rearrange_columns df P).schema =
      P.filter (fun c => c ∈ df.schema) ++
        df.schema.filter (fun c => c ∉ P) := rfl

theorem rearrange_columns_rows (df : DataFrame) (P : List String) :
    (rearrange_columns df P).rows =
      df.rows.map (fun r =>
        (P.filter (fun c => c ∈ df.schema) ++
          df.schema.filter (fun c => c ∉ P)).map
          (fun c => cellOf df.schema r c)) := rfl

theorem mem_rearrange_schema (df : DataFrame) (P : List String) (c : String) :
    c ∈ (rearrange_columns df P).schema ↔ c ∈ df.schema := by
  rw [rearrange_columns_schema]
  simp only [List.mem_append, List.mem_filter, decide_eq_true_eq]
  constructor
  · rintro (⟨_, h⟩ | ⟨h, _⟩) <;> exact h
  · intro h
    by_cases hp : c ∈ P
    · exact Or.inl ⟨hp, h⟩
    · exact Or.inr ⟨h, hp⟩

/-- C4.  The output column order of `rearrange_columns` is exactly the
priority columns present in the schema, in priority order, followed by
the other schema columns in original order; the column set is
preserved, and (for duplicate-free schemas and priority lists) the
output schema is a permutation of the input schema — no column dropped,
duplicated, or renamed. -/
theorem rearrange_columns_spec (df : DataFrame) (P : List String)
    (hP : P.Nodup) (hS : df.schema.Nodup) :
    (rearrange_columns df P).schema =
        P.filter (fun c => c ∈ df.schema) ++
          df.schema.filter (fun c => c ∉ P) ∧
    (∀ c, c ∈ (rearrange_columns df P).schema ↔ c ∈ df.schema) ∧
    (rearrange_columns df P).schema.Perm df.schema := by
  refine ⟨rearrange_columns_schema df P, mem_rearrange_schema df P, ?_⟩
  have hnodup : (rearrange_columns df P).schema.Nodup := by
    rw [rearrange_columns_schema]
    refine List.Nodup.append (hP.filter _) (hS.filter _) ?_
    intro c hc1 hc2
    have h1 : c ∈ P := (List.mem_filter.mp hc1).1
    have h2 : c ∉ P := by
      have := (List.mem_filter.mp hc2).2
      simpa using this
    exact h2 h1
  refine List.perm_of_nodup_nodup_toFinset_eq hnodup hS ?_
  ext c
  simp only [List.mem_toFinset]
  exact mem_rearrange_schema df P c

theorem rearrange_columns_spec_witness :
    (rearrange_columns
        ⟨["MP", "Status", "Latitude"], [[Value.num 1, Value.str "Open", Value.num 2]]⟩
        ["Status", "Action"]).schema.Perm ["MP", "Status", "Latitude"] :=
  (rearrange_columns_spec
      ⟨["MP", "Status", "Latitude"], [[Value.num 1, Value.str "Open", Value.num 2]]⟩
      ["Status", "Action"] (by decide) (by decide)).2.2

theorem colIdx_eq_none_iff (S : List String) (c : String) :
    colIdx S c = none ↔ c ∉ S := by
  induction S with
  | nil => simp [colIdx]
  | cons a rest ih =>
    by_cases h : a = c
    · subst h; simp [colIdx]
    · simp only [colIdx, if_neg h, Option.map_eq_none', ih,
        List.mem_cons]
      constructor
      · intro hn hc
        rcases hc with hc | hc
        · exact h hc.symm
        · exact hn hc
      · intro hn hc
        exact hn (Or.inr hc)

theorem cellOf_map_of_mem (S : List String) (f : String → Value) (c : String)
    (hc : c ∈ S) : cellOf S (S.map f) c = f c := by
  induction S with
  | nil => exact absurd hc (List.not_mem_nil c)
  | cons a rest ih =>
    by_cases h : a = c
    · subst h
      simp [cellOf, colIdx]
    · have hc' : c ∈ rest := by
        rcases List.mem_cons.mp hc with hcc | hcc
        · exact absurd hcc.symm h
        · exact hcc
      cases hidx : colIdx rest c with
      | none => exact absurd hc' ((colIdx_eq_none_iff rest c).mp hidx)
      | some i =>
        have h1 : cellOf (a :: rest) ((a :: rest).map f) c =
            (rest.map f).getD i Value.na := by
          simp [cellOf, colIdx, if_neg h, hidx]
        have h2 : cellOf rest (rest.map f) c = (rest.map f).getD i Value.na := by
          simp [cellOf, hidx]
        rw [h1, ← h2]
        exact ih hc'


theorem selectColumns_selectColumns (df : DataFrame) (cols1 cols2 : List String)
    (h : ∀ c ∈ cols2, c ∈ cols1) :
    selectColumns (selectColumns df cols1) cols2 = selectColumns df cols2 := by
  refine dataframe_ext rfl ?_
  show (df.rows.map (fun r => cols1.map (fun c => cellOf df.schema r c))).map
      (fun r1 => cols2.map (fun c => cellOf cols1 r1 c)) =
    df.rows.map (fun r => cols2.map (fun c => cellOf df.schema r c))
  rw [List.map_map]
  refine List.map_congr_left ?_
  intro r _
  refine List.map_congr_left ?_
  intro c hc
  exact cellOf_map_of_mem cols1 (fun c' => cellOf df.schema r c') c (h c hc)

/-- C9.  Applying `rearrange_columns` twice with the same priority list
is the same as applying it once. -/
theorem rearrange_columns_idem (df : DataFrame) (P : List String) :
    rearrange_columns (rearrange_columns df P) P = rearrange_columns df P := by
  have hschema : P.filter (fun c => c ∈ (rearrange_columns df P).schema) ++
      (rearrange_columns df P).schema.filter (fun c => c ∉ P) =
      P.filter (fun c => c ∈ df.schema) ++
        df.schema.filter (fun c => c ∉ P) := by
    have havail : P.filter (fun c => c ∈ (rearrange_columns df P).schema) =
        P.filter (fun c => c ∈ df.schema) := by
      refine List.filter_congr ?_
      intro c _
      exact decide_eq_decide.mpr (mem_rearrange_schema df P c)
    rw [havail, rearrange_columns_schema, List.filter_append]
    have h1 : (P.filter (fun c => c ∈ df.schema)).filter
        (fun c => c ∉ P) = [] := by
      rw [List.filter_eq_nil_iff]
      intro c hc
      have : c ∈ P := (List.mem_filter.mp hc).1
      simp [this]
    have h2 : (df.schema.filter (fun c => c ∉ P)).filter
        (fun c => c ∉ P) = df.schema.filter (fun c => c ∉ P) := by
      rw [List.filter_eq_self]
      intro c hc
      exact (List.mem_filter.mp hc).2
    rw [h1, h2, List.nil_append]
  show selectColumns (rearrange_columns df P)
      (P.filter (fun c => c ∈ (rearrange_columns df P).schema) ++
        (rearrange_columns df P).schema.filter (fun c => c ∉ P)) =
    rearrange_columns df P
  rw [hschema]
  show selectColumns
      (selectColumns df
        (P.filter (fun c => c ∈ df.schema) ++
          df.schema.filter (fun c => c ∉ P)))
      (P.filter (fun c => c ∈ df.schema) ++
        df.schema.filter (fun c => c ∉ P)) =
    rearrange_columns df P
  exact selectColumns_selectColumns df _ _ (fun c hc => hc)

/-! ### Claim C7: default filter fallback -/

theorem mem_uniqueAux (v : Value) (l seen : List Value) :
    v ∈ uniqueAux l seen ↔ v ∈ l ∧ v ∉ seen := by
  induction l generalizing seen with
  | nil => simp [uniqueAux]
  | cons a rest ih =>
    by_cases ha : a ∈ seen
    · rw [uniqueAux, if_pos ha, ih]
      simp only [List.mem_cons]
      constructor
      · rintro ⟨hr, hs⟩
        exact ⟨Or.inr hr, hs⟩
      · rintro ⟨hr | hr, hs⟩
        · exact absurd (hr ▸ ha) hs
        · exact ⟨hr, hs⟩
    · rw [uniqueAux, if_neg ha]
      simp only [List.mem_cons, ih, List.mem_cons]
      constructor
      · rintro (hv | ⟨hr, hs⟩)
        · exact ⟨Or.inl hv, hv ▸ ha⟩
        · exact ⟨Or.inr hr, fun hseen => hs (Or.inr hseen)⟩
      · rintro ⟨hv | hr, hs⟩
        · exact Or.inl hv
        · by_cases hva : v = a
          · exact Or.inl hva
          · exact Or.inr ⟨hr, fun hc => by
              rcases hc with hc | hc
              · exact hva hc
              · exact hs hc⟩

theorem mem_uniqueList (v : Value) (l : List Value) :
    v ∈ uniqueList l ↔ v ∈ l := by
  unfold uniqueList
  rw [mem_uniqueAux]
  simp

theorem getD_indexOf_of_mem {α : Type} [DecidableEq α] (l : List α) (a d : α)
    (h : a ∈ l) : l.getD (l.indexOf a) d = a := by
  induction l with
  | nil => exact absurd h (List.not_mem_nil a)
  | cons b rest ih =>
    by_cases hb : b = a
    · subst hb; rw [List.indexOf_cons_self]; rfl
    · have ha : a ∈ rest := by
        rcases List.mem_cons.mp h with hh | hh
        · exact absurd hh.symm hb
        · exact hh
      rw [List.indexOf_cons_ne _ hb, List.getD_cons_succ]
      exact ih ha

theorem sidebarSelected_default (df : DataFrame) (c : String)
    (defaults : List (String × Value)) (v : Value)
    (hv : defaults.lookup c = some v) :
    sidebarSelected df c defaults [] =
      if v ∈ colValues df c then v else allValue := by
  unfold sidebarSelected
  simp only [List.lookup_nil, hv, Option.getD_some]
  by_cases hmem : v ∈ colValues df c
  · rw [if_pos hmem]
    have hv' : v ∈ allValue :: uniqueList (colValues df c) :=
      List.mem_cons_of_mem _ ((mem_uniqueList v _).mpr hmem)
    rw [if_pos hv']
    exact getD_indexOf_of_mem _ v allValue hv'
  · rw [if_neg hmem]
    by_cases hall : v = allValue
    · subst hall
      rw [if_pos (List.mem_cons_self _ _), List.indexOf_cons_self]
      rfl
    · have hv' : v ∉ allValue :: uniqueList (colValues df c) := by
        intro hmem'
        rcases List.mem_cons.mp hmem' with h | h
        · exact hall h
        · exact hmem ((mem_uniqueList v _).mp h)
      rw [if_neg hv']
      rfl

theorem create_sidebar_filters_lookup (df : DataFrame) (fcs : List String)
    (defaults choices : List (String × Value)) (c : String)
    (hc : c ∈ fcs) (hs : c ∈ df.schema) :
    (create_sidebar_filters df fcs defaults choices).lookup c =
      some (sidebarSelected df c defaults choices) := by
  induction fcs with
  | nil => exact absurd hc (List.not_mem_nil c)
  | cons col rest ih =>
    by_cases hcol : col = c
    · subst hcol
      show (if col ∈ df.schema then
          (col, sidebarSelected df col defaults choices) ::
            create_sidebar_filters df rest defaults choices
        else create_sidebar_filters df rest defaults choices).lookup col =
        some (sidebarSelected df col defaults choices)
      rw [if_pos hs, List.lookup_cons]
      simp
    · have hc' : c ∈ rest := by
        rcases List.mem_cons.mp hc with h | h
        · exact absurd h.symm hcol
        · exact h
      show (if col ∈ df.schema then
          (col, sidebarSelected df col defaults choices) ::
            create_sidebar_filters df rest defaults choices
        else create_sidebar_filters df rest defaults choices).lookup c =
        some (sidebarSelected df c defaults choices)
      by_cases hcs : col ∈ df.schema
      · rw [if_pos hcs, List.lookup_cons]
        have hbeq : (c == col) = false := by
          simp
          intro h
          exact hcol h.symm
        rw [hbeq]
        exact ih hc'
      · rw [if_neg hcs]
        exact ih hc'

/-- C7.  For a filterable column present in the data, with no user
override: when the configured default value is not among the column's
observed values the effective filter for that column silently falls
back to `All`, and when it is present it is applied as-is. -/
theorem sidebar_default_fallback (df : DataFrame) (fcs : List String)
    (defaults : List (String × Value)) (c : String) (v : Value)
    (hc : c ∈ fcs) (hs : c ∈ df.schema) (hv : defaults.lookup c = some v) :
    (v ∉ colValues df c →
      (create_sidebar_filters df fcs defaults []).lookup c = some allValue) ∧
    (v ∈ colValues df c →
      (create_sidebar_filters df fcs defaults []).lookup c = some v) := by
  rw [create_sidebar_filters_lookup df fcs defaults [] c hc hs,
    sidebarSelected_default df c defaults v hv]
  constructor
  · intro h; rw [if_neg h]
  · intro h; rw [if_pos h]

theorem sidebar_default_fallback_witness :
    (create_sidebar_filters ⟨["Sys"], [[Value.str "OTH"]]⟩
        ["Status", "Sys", "Severity"] tec_default_filters []).lookup "Sys" =
      some allValue :=
  (sidebar_default_fallback ⟨["Sys"], [[Value.str "OTH"]]⟩
      ["Status", "Sys", "Severity"] tec_default_filters "Sys"
      (Value.str "TGMS") (by decide) (by decide) (by decide)).1
    (by decide)

/-! ### Claim C8: coordinate extraction -/

theorem coordFrame_ok_rows (df : DataFrame) (A : DataFrame)
    (h : coordFrame df = Except.ok A) :
    A.rows = (validPairs df).map (fun p => [p.1, p.2]) := by
  unfold coordFrame at h
  split at h
  case isTrue hcols =>
    have hA : A = dropna (selectColumns df ["Latitude", "Longitude"]) := by
      injection h with h'
      exact h'.symm
    subst hA
    show (df.rows.map (fun r =>
        ["Latitude", "Longitude"].map (fun c => cellOf df.schema r c))).filter
        (fun r => r.all (fun v => !(isNA v))) =
      (validPairs df).map (fun p => [p.1, p.2])
    unfold validPairs
    rw [List.filter_map, List.filter_map, List.map_map]
    refine congrArg (List.map _) ?_
    refine List.filter_congr ?_
    intro r _
    show (["Latitude", "Longitude"].map
        (fun c => cellOf df.schema r c)).all (fun v => !(isNA v)) =
      (!(isNA (cellOf df.schema r "Latitude")) &&
        !(isNA (cellOf df.schema r "Longitude")))
    simp [List.all_cons]
  case isFalse => cases h

theorem process_coordinates_ok (df : DataFrame)
    (h1 : "Latitude" ∈ df.schema) (h2 : "Longitude" ∈ df.schema) :
    process_coordinates df = Except.ok (validPairs df) := by
  have hA : coordFrame df =
      Except.ok (dropna (selectColumns df ["Latitude", "Longitude"])) := by
    unfold coordFrame
    rw [if_pos ⟨h1, h2⟩]
  unfold process_coordinates
  rw [hA]
  show Except.ok
      ((dropna (selectColumns df ["Latitude", "Longitude"])).rows.map
        (fun r => (r.getD 0 Value.na, r.getD 1 Value.na))) =
    Except.ok (validPairs df)
  rw [coordFrame_ok_rows df _ hA, List.map_map]
  refine congrArg Except.ok ?_
  have : ∀ p : Value × Value,
      ((fun r : List Value => (r.getD 0 Value.na, r.getD 1 Value.na)) ∘
        (fun p : Value × Value => [p.1, p.2])) p = p := by
    intro p; rfl
  rw [List.map_congr_left (fun p _ => this p)]
  simp

/-- C8.  For a dataset with the coordinate columns,
`process_coordinates` returns exactly the `(Latitude, Longitude)` pairs
of the rows where both values are present, in row order, dropping every
row missing either component. -/
theorem process_coordinates_spec (df : DataFrame)
    (h1 : "Latitude" ∈ df.schema) (h2 : "Longitude" ∈ df.schema) :
    process_coordinates df = Except.ok (validPairs df) :=
  process_coordinates_ok df h1 h2

theorem process_coordinates_spec_witness :
    process_coordinates
        ⟨["Latitude", "Longitude", "Status"],
         [[Value.num 1, Value.num 1, Value.str "Open"],
          [Value.na, Value.num 3, Value.str "Open"],
          [Value.num 3, Value.num 3, Value.str "Open"]]⟩ =
      Except.ok [(Value.num 1, Value.num 1), (Value.num 3, Value.num 3)] ∧
    (validPairs
        ⟨["Latitude", "Longitude", "Status"],
         [[Value.num 1, Value.num 1, Value.str "Open"],
          [Value.na, Value.num 3, Value.str "Open"],
          [Value.num 3, Value.num 3, Value.str "Open"]]⟩).length = 2 := by
  constructor
  · rw [process_coordinates_spec
      ⟨["Latitude", "Longitude", "Status"],
       [[Value.num 1, Value.num 1, Value.str "Open"],
        [Value.na, Value.num 3, Value.str "Open"],
        [Value.num 3, Value.num 3, Value.str "Open"]]⟩
      (by decide) (by decide)]
    rfl
  · decide

/-! ### Claim C3: the map center -/

theorem toNums_ok_eq (l : List Value) (qs : List ℚ)
    (h : toNums l = Except.ok qs) : l = qs.map Value.num := by
  induction l generalizing qs with
  | nil =>
    have : qs = [] := by
      unfold toNums at h
      injection h with h'
      exact h'.symm
    subst this
    rfl
  | cons v rest ih =>
    unfold toNums at h
    cases hv : toNum v with
    | error e =>
      rw [hv] at h
      cases hrest : toNums rest with
      | error e2 => rw [hrest] at h; exact Except.noConfusion h
      | ok qs' => rw [hrest] at h; exact Except.noConfusion h
    | ok q =>
      rw [hv] at h
      cases hrest : toNums rest with
      | error e => rw [hrest] at h; exact Except.noConfusion h
      | ok qs' =>
        rw [hrest] at h
        have hq : qs = q :: qs' := by
          injection h with h'
          exact h'.symm
        subst hq
        have hv' : v = Value.num q := by
          cases v with
          | na => exact Except.noConfusion hv
          | str s => exact Except.noConfusion hv
          | num q' =>
            have : q' = q := by injection hv
            rw [this]
        rw [List.map_cons, hv', ih qs' hrest]

theorem filterMap_ratPair_of (rows : List (List Value)) (lats lons : List ℚ)
    (h0 : rows.map (fun r => r.getD 0 Value.na) = lats.map Value.num)
    (h1 : rows.map (fun r => r.getD 1 Value.na) = lons.map Value.num) :
    rows.filterMap ratPair = lats.zip lons := by
  induction rows generalizing lats lons with
  | nil =>
    have ha : lats = [] := by
      have h' := h0.symm
      simp only [List.map_nil] at h'
      exact List.map_eq_nil_iff.mp h'
    have hb : lons = [] := by
      have h' := h1.symm
      simp only [List.map_nil] at h'
      exact List.map_eq_nil_iff.mp h'
    subst ha; subst hb; rfl
  | cons r rest ih =>
    cases lats with
    | nil => exact absurd h0 (by simp)
    | cons la lats' =>
      cases lons with
      | nil => exact absurd h1 (by simp)
      | cons lo lons' =>
        simp only [List.map_cons, List.cons.injEq] at h0 h1
        have hpair : ratPair r = some (la, lo) := by
          unfold ratPair
          rw [h0.1, h1.1]
        rw [List.filterMap_cons, hpair, List.zip_cons_cons]
        exact congrArg (List.cons (la, lo)) (ih lats' lons' h0.2 h1.2)

theorem centerOf_ok_eq (rows : List (List Value)) (c : ℚ × ℚ)
    (h : centerOf rows = Except.ok c) :
    c = centroid (rows.filterMap ratPair) := by
  unfold centerOf at h
  split at h
  case isTrue hemp =>
    have hrows : rows = [] := List.isEmpty_iff.mp hemp
    subst hrows
    have : c = (529399/10000, -1084976/10000) := by
      injection h with h'
      exact h'.symm
    rw [this]
    rfl
  case isFalse hemp =>
    cases h0 : toNums (rows.map (fun r => r.getD 0 Value.na)) with
    | error e =>
      rw [h0] at h
      cases h1 : toNums (rows.map (fun r => r.getD 1 Value.na)) with
      | error e2 => rw [h1] at h; exact Except.noConfusion h
      | ok lons => rw [h1] at h; exact Except.noConfusion h
    | ok lats =>
      cases h1 : toNums (rows.map (fun r => r.getD 1 Value.na)) with
      | error e => rw [h0, h1] at h; exact Except.noConfusion h
      | ok lons =>
        rw [h0, h1] at h
        have hc : c = (lats.sum / lats.length, lons.sum / lons.length) := by
          injection h with h'
          exact h'.symm
        have e0 := toNums_ok_eq _ _ h0
        have e1 := toNums_ok_eq _ _ h1
        have hlen0 : rows.length = lats.length := by
          have := congrArg List.length e0
          simpa using this
        have hlen1 : rows.length = lons.length := by
          have := congrArg List.length e1
          simpa using this
        have hzip : rows.filterMap ratPair = lats.zip lons :=
          filterMap_ratPair_of rows lats lons e0 e1
        have hrlen : rows.length ≠ 0 := by
          intro hz
          exact hemp (List.isEmpty_iff.mpr (List.length_eq_zero.mp hz))
        have hzlen : (lats.zip lons).length = lats.length := by
          rw [List.length_zip, ← hlen0, ← hlen1, Nat.min_self]
        rw [hc, hzip]
        unfold centroid
        rw [if_neg ?_]
        · rw [List.map_fst_zip _ _ (by rw [← hlen0, ← hlen1]),
            List.map_snd_zip _ _ (by rw [← hlen0, ← hlen1]), hzlen,
            ← hlen0, hlen1]
        · intro hz
          rw [List.isEmpty_iff] at hz
          have : (lats.zip lons).length = 0 := by rw [hz]; rfl
          rw [hzlen, ← hlen0] at this
          exact hrlen this

theorem filterMap_ratPair_validRat (df : DataFrame) (A : DataFrame)
    (h : coordFrame df = Except.ok A) :
    A.rows.filterMap ratPair = validRatCoords df := by
  rw [coordFrame_ok_rows df A h, List.filterMap_map]
  unfold validRatCoords
  refine congrArg (fun f => List.filterMap f (validPairs df)) ?_
  funext p
  rfl

theorem create_map_ok_center (dtn tec : DataFrame) (mode : String)
    (bm : BasemapSpec) (m : MapArtifact)
    (h : create_map dtn tec mode bm = Except.ok m) :
    m.center = centroid (validRatCoords dtn ++ validRatCoords tec) := by
  unfold create_map at h
  cases hA : coordFrame dtn with
  | error e => simp only [hA] at h; exact Except.noConfusion h
  | ok a =>
    simp only [hA] at h
    cases hB : coordFrame tec with
    | error e => simp only [hB] at h; exact Except.noConfusion h
    | ok b =>
      simp only [hB] at h
      cases hC : centerOf (a.rows ++ b.rows) with
      | error e => simp only [hC] at h; exact Except.noConfusion h
      | ok center =>
        simp only [hC] at h
        have hcen : m.center = center := by
          by_cases hm : mode = "markers"
          · rw [if_pos hm] at h
            injection h with h'
            rw [← h']
          · rw [if_neg hm] at h
            cases hp1 : process_coordinates dtn with
            | error e => simp only [hp1] at h; exact Except.noConfusion h
            | ok h1 =>
              simp only [hp1] at h
              cases hp2 : process_coordinates tec with
              | error e => simp only [hp2] at h; exact Except.noConfusion h
              | ok h2 =>
                simp only [hp2] at h
                injection h with h'
                rw [← h']
        rw [hcen, centerOf_ok_eq _ _ hC, List.filterMap_append,
          filterMap_ratPair_validRat dtn a hA,
          filterMap_ratPair_validRat tec b hB]

theorem create_map_empty_coords_ok (dtn tec : DataFrame) (mode : String)
    (bm : BasemapSpec)
    (h1 : "Latitude" ∈ dtn.schema) (h2 : "Longitude" ∈ dtn.schema)
    (h3 : "Latitude" ∈ tec.schema) (h4 : "Longitude" ∈ tec.schema)
    (hv1 : validPairs dtn = []) (hv2 : validPairs tec = []) :
    ∃ m, create_map dtn tec mode bm = Except.ok m ∧
      m.center = (529399/10000, -1084976/10000) := by
  have hA : coordFrame dtn =
      Except.ok (dropna (selectColumns dtn ["Latitude", "Longitude"])) := by
    unfold coordFrame; rw [if_pos ⟨h1, h2⟩]
  have hB : coordFrame tec =
      Except.ok (dropna (selectColumns tec ["Latitude", "Longitude"])) := by
    unfold coordFrame; rw [if_pos ⟨h3, h4⟩]
  have hra : (dropna (selectColumns dtn ["Latitude", "Longitude"])).rows = [] := by
    rw [coordFrame_ok_rows dtn _ hA, hv1]; rfl
  have hrb : (dropna (selectColumns tec ["Latitude", "Longitude"])).rows = [] := by
    rw [coordFrame_ok_rows tec _ hB, hv2]; rfl
  have hcen : centerOf
      ((dropna (selectColumns dtn ["Latitude", "Longitude"])).rows ++
        (dropna (selectColumns tec ["Latitude", "Longitude"])).rows) =
      Except.ok (529399/10000, -1084976/10000) := by
    rw [hra, hrb]; rfl
  unfold create_map
  simp only [hA, hB, hcen]
  by_cases hm : mode = "markers"
  · rw [if_pos hm]
    exact ⟨_, rfl, rfl⟩
  · rw [if_neg hm]
    have hp1 : process_coordinates dtn = Except.ok [] := by
      rw [process_coordinates_ok dtn h1 h2, hv1]
    have hp2 : process_coordinates tec = Except.ok [] := by
      rw [process_coordinates_ok tec h3 h4, hv2]
    simp only [hp1, hp2]
    exact ⟨_, rfl, rfl⟩

/-- C3.  Whenever `create_map` renders, the map center is the
centroid (arithmetic mean of latitudes and of longitudes) of the valid
coordinates of both datasets combined; when both datasets carry the
coordinate columns but the combined valid-coordinate set is empty, the
render succeeds and the center is exactly `(52.9399, -108.4976)`; and
`centroid [(1,1),(3,3)] = (2,2)`, `centroid [] = (52.9399, -108.4976)`. -/
theorem create_map_center_spec (dtn tec : DataFrame) (mode : String)
    (bm : BasemapSpec) :
    (∀ m, create_map dtn tec mode bm = Except.ok m →
      m.center = centroid (validRatCoords dtn ++ validRatCoords tec)) ∧
    (("Latitude" ∈ dtn.schema ∧ "Longitude" ∈ dtn.schema ∧
      "Latitude" ∈ tec.schema ∧ "Longitude" ∈ tec.schema ∧
      validPairs dtn = [] ∧ validPairs tec = []) →
      ∃ m, create_map dtn tec mode bm = Except.ok m ∧
        m.center = (529399/10000, -1084976/10000)) ∧
    centroid [(1, 1), (3, 3)] = (2, 2) ∧
    centroid [] = (529399/10000, -1084976/10000) := by
  refine ⟨fun m hm => create_map_ok_center dtn tec mode bm m hm, ?_, ?_, rfl⟩
  · rintro ⟨h1, h2, h3, h4, hv1, hv2⟩
    exact create_map_empty_coords_ok dtn tec mode bm h1 h2 h3 h4 hv1 hv2
  · unfold centroid
    norm_num

theorem create_map_center_spec_witness :
    ∃ m, create_map ⟨["Latitude", "Longitude"], [[Value.na, Value.num 1]]⟩
        ⟨["Latitude", "Longitude"], []⟩ "markers"
        (BasemapSpec.name "OpenStreetMap") = Except.ok m ∧
      m.center = (529399/10000, -1084976/10000) :=
  (create_map_center_spec ⟨["Latitude", "Longitude"], [[Value.na, Value.num 1]]⟩
      ⟨["Latitude", "Longitude"], []⟩ "markers"
      (BasemapSpec.name "OpenStreetMap")).2.1
    ⟨by decide, by decide, by decide, by decide, by decide, by decide⟩

/-! ### Claim C5: render modes are mutually exclusive -/

/-- C5.  A render in markers mode contains zero heat/density layers; a
render in heatmap mode contains zero cluster layers and zero point
markers. -/
theorem create_map_mode_exclusive (dtn tec : DataFrame) (bm : BasemapSpec) :
    (∀ m, create_map dtn tec "markers" bm = Except.ok m →
      m.layers.countP Layer.isHeat = 0) ∧
    (∀ m, create_map dtn tec "heatmap" bm = Except.ok m →
      m.layers.countP Layer.isCluster = 0 ∧
        (m.layers.map Layer.markers).flatten = []) := by
  constructor
  · intro m h
    unfold create_map at h
    cases hA : coordFrame dtn with
    | error e => simp only [hA] at h; exact Except.noConfusion h
    | ok a =>
      simp only [hA] at h
      cases hB : coordFrame tec with
      | error e => simp only [hB] at h; exact Except.noConfusion h
      | ok b =>
        simp only [hB] at h
        cases hC : centerOf (a.rows ++ b.rows) with
        | error e => simp only [hC] at h; exact Except.noConfusion h
        | ok center =>
          simp only [hC] at h
          rw [if_pos trivial] at h
          injection h with h'
          rw [← h']
          simp [List.countP_cons, Layer.isHeat]
  · intro m h
    unfold create_map at h
    cases hA : coordFrame dtn with
    | error e => simp only [hA] at h; exact Except.noConfusion h
    | ok a =>
      simp only [hA] at h
      cases hB : coordFrame tec with
      | error e => simp only [hB] at h; exact Except.noConfusion h
      | ok b =>
        simp only [hB] at h
        cases hC : centerOf (a.rows ++ b.rows) with
        | error e => simp only [hC] at h; exact Except.noConfusion h
        | ok center =>
          simp only [hC] at h
          rw [if_neg (by decide : ¬("heatmap" = "markers"))] at h
          cases hp1 : process_coordinates dtn with
          | error e => simp only [hp1] at h; exact Except.noConfusion h
          | ok h1 =>
            simp only [hp1] at h
            cases hp2 : process_coordinates tec with
            | error e => simp only [hp2] at h; exact Except.noConfusion h
            | ok h2 =>
              simp only [hp2] at h
              injection h with h'
              rw [← h']
              by_cases he : (h1 ++ h2).isEmpty
              · simp [he, List.countP_cons, Layer.isCluster, Layer.markers]
              · simp [he, List.countP_cons, List.countP_append,
                  Layer.isCluster, Layer.markers]

theorem create_map_mode_exclusive_witness :
    (MapArtifact.mk (529399/10000, -1084976/10000) 7 "OpenStreetMap" ""
        [Layer.cluster "DTN Defects" [], Layer.cluster "ATGMS Defects" [],
         Layer.locate]).layers.countP Layer.isHeat = 0 :=
  (create_map_mode_exclusive ⟨["Latitude", "Longitude"], []⟩
      ⟨["Latitude", "Longitude"], []⟩ (BasemapSpec.name "OpenStreetMap")).1
    (MapArtifact.mk (529399/10000, -1084976/10000) 7 "OpenStreetMap" ""
      [Layer.cluster "DTN Defects" [], Layer.cluster "ATGMS Defects" [],
       Layer.locate])
    (by rfl)

/-! ### Claim C2: the rendering pass can raise -/

/-- C2 (code bug).  `create_map` is not total: when one input frame
lacks the coordinate columns, the coordinate concatenation of app.py
lines 36-38 raises `KeyError`; `main` reaches this state (its map guard
at lines 262-263 only requires the columns in ONE of the two frames),
so the render pass ends in an uncaught exception instead of degrading.
The markers branch's own per-dataset guards (lines 63 and 73) show the
function was meant to tolerate such inputs. -/
theorem create_map_missing_columns_raises :
    create_map
        ⟨["Subdivision", "Latitude", "Longitude"],
         [[Value.str "WILKIE", Value.num 1, Value.num 1]]⟩
        ⟨["Subdivision", "Status"],
         [[Value.str "WILKIE", Value.str "Confirmed"]]⟩
        "markers" (BasemapSpec.name "OpenStreetMap") =
      Except.error "KeyError: ['Latitude', 'Longitude'] not in index" ∧
    mainRun
        ⟨["Subdivision", "Latitude", "Longitude"],
         [[Value.str "WILKIE", Value.num 1, Value.num 1]]⟩
        ⟨["Subdivision", "Status"],
         [[Value.str "WILKIE", Value.str "Confirmed"]]⟩
        "WILKIE" [] [] "markers" "Street (OpenStreetMap)" =
      Except.error "KeyError: ['Latitude', 'Longitude'] not in index" := by
  exact ⟨rfl, by rfl⟩

/-! ### Claim C10: the no-coordinate-data path of the controller -/

theorem mem_pipeline_schema (df : DataFrame) (fs : List (String × Value))
    (P : List String) (c : String) :
    c ∈ (rearrange_columns (filter_dataframe df fs) P).schema ↔
      c ∈ df.schema := by
  rw [mem_rearrange_schema, filter_dataframe_schema]

/-- C10.  When neither dataset has both coordinate columns, the
controller produces no map artifact (the `create_map` branch is never
taken), shows the no-coordinate-data warning, and still displays the
two filtered, reordered tables with their exact row counts. -/
theorem mainRun_no_coordinates (dtn tec : DataFrame) (sub : String)
    (dc tc : List (String × Value)) (mode bmc : String)
    (hs1 : "Subdivision" ∈ dtn.schema) (hs2 : "Subdivision" ∈ tec.schema)
    (h1 : ¬("Latitude" ∈ dtn.schema ∧ "Longitude" ∈ dtn.schema))
    (h2 : ¬("Latitude" ∈ tec.schema ∧ "Longitude" ∈ tec.schema)) :
    ∃ d, mainRun dtn tec sub dc tc mode bmc = Except.ok d ∧
      d.mapArtifact = none ∧
      d.warning = some "No coordinate data available for mapping." ∧
      d.dtnTable = rearrange_columns (filter_dataframe
        (eqFilterRows dtn "Subdivision" (Value.str sub))
        (create_sidebar_filters (eqFilterRows dtn "Subdivision" (Value.str sub))
          ["Status", "Asset"] dtn_default_filters dc)) dtn_priority_cols ∧
      d.tecTable = rearrange_columns (filter_dataframe
        (eqFilterRows tec "Subdivision" (Value.str sub))
        (create_sidebar_filters (eqFilterRows tec "Subdivision" (Value.str sub))
          ["Status", "Sys", "Severity"] tec_default_filters tc)) tec_priority_cols ∧
      d.dtnRowCount = d.dtnTable.rows.length ∧
      d.tecRowCount = d.tecTable.rows.length := by
  have hguard : ¬ (("Latitude" ∈ (rearrange_columns (filter_dataframe
        (eqFilterRows dtn "Subdivision" (Value.str sub))
        (create_sidebar_filters (eqFilterRows dtn "Subdivision" (Value.str sub))
          ["Status", "Asset"] dtn_default_filters dc)) dtn_priority_cols).schema ∧
      "Longitude" ∈ (rearrange_columns (filter_dataframe
        (eqFilterRows dtn "Subdivision" (Value.str sub))
        (create_sidebar_filters (eqFilterRows dtn "Subdivision" (Value.str sub))
          ["Status", "Asset"] dtn_default_filters dc)) dtn_priority_cols).schema) ∨
      ("Latitude" ∈ (rearrange_columns (filter_dataframe
        (eqFilterRows tec "Subdivision" (Value.str sub))
        (create_sidebar_filters (eqFilterRows tec "Subdivision" (Value.str sub))
          ["Status", "Sys", "Severity"] tec_default_filters tc)) tec_priority_cols).schema ∧
      "Longitude" ∈ (rearrange_columns (filter_dataframe
        (eqFilterRows tec "Subdivision" (Value.str sub))
        (create_sidebar_filters (eqFilterRows tec "Subdivision" (Value.str sub))
          ["Status", "Sys", "Severity"] tec_default_filters tc)) tec_priority_cols).schema)) := by
    rintro (⟨ha, hb⟩ | ⟨ha, hb⟩)
    · exact h1
        ⟨(mem_pipeline_schema (eqFilterRows dtn "Subdivision" (Value.str sub))
            _ _ _).mp ha,
         (mem_pipeline_schema (eqFilterRows dtn "Subdivision" (Value.str sub))
            _ _ _).mp hb⟩
    · exact h2
        ⟨(mem_pipeline_schema (eqFilterRows tec "Subdivision" (Value.str sub))
            _ _ _).mp ha,
         (mem_pipeline_schema (eqFilterRows tec "Subdivision" (Value.str sub))
            _ _ _).mp hb⟩
  simp only [mainRun]
  rw [if_pos ⟨hs1, hs2⟩, if_neg hguard]
  exact ⟨_, rfl, rfl, rfl, rfl, rfl, rfl, rfl⟩

theorem mainRun_no_coordinates_witness :
    ∃ d, mainRun ⟨["Subdivision", "Status"], [[Value.str "WILKIE", Value.str "Open"]]⟩
        ⟨["Subdivision", "Status"], [[Value.str "WILKIE", Value.str "Confirmed"]]⟩
        "WILKIE" [] [] "markers" "Street (OpenStreetMap)" = Except.ok d ∧
      d.mapArtifact = none ∧
      d.warning = some "No coordinate data available for mapping." ∧
      d.dtnTable = rearrange_columns (filter_dataframe
        (eqFilterRows ⟨["Subdivision", "Status"], [[Value.str "WILKIE", Value.str "Open"]]⟩
          "Subdivision" (Value.str "WILKIE"))
        (create_sidebar_filters
          (eqFilterRows ⟨["Subdivision", "Status"], [[Value.str "WILKIE", Value.str "Open"]]⟩
            "Subdivision" (Value.str "WILKIE"))
          ["Status", "Asset"] dtn_default_filters [])) dtn_priority_cols ∧
      d.tecTable = rearrange_columns (filter_dataframe
        (eqFilterRows ⟨["Subdivision", "Status"], [[Value.str "WILKIE", Value.str "Confirmed"]]⟩
          "Subdivision" (Value.str "WILKIE"))
        (create_sidebar_filters
          (eqFilterRows ⟨["Subdivision", "Status"], [[Value.str "WILKIE", Value.str "Confirmed"]]⟩
            "Subdivision" (Value.str "WILKIE"))
          ["Status", "Sys", "Severity"] tec_default_filters [])) tec_priority_cols ∧
      d.dtnRowCount = d.dtnTable.rows.length ∧
      d.tecRowCount = d.tecTable.rows.length :=
  mainRun_no_coordinates
    ⟨["Subdivision", "Status"], [[Value.str "WILKIE", Value.str "Open"]]⟩
    ⟨["Subdivision", "Status"], [[Value.str "WILKIE", Value.str "Confirmed"]]⟩
    "WILKIE" [] [] "markers" "Street (OpenStreetMap)"
    (by decide) (by decide) (by decide) (by decide)
